import Mathlib

/-!
Shallow embedding of the `port_check` Rust library (src/lib.rs) and proofs
about it.  The library is a thin layer over the operating system's socket
primitives (`TcpListener::bind`, `TcpStream::connect`,
`TcpStream::connect_timeout`, `ToSocketAddrs::to_socket_addrs`), so the
embedding makes the OS explicit as an environment record `NetEnv` holding the
outcome of each primitive, and translates every library function as a pure
function of that environment.
-/

namespace PortCheck

/-- The `std::io` error kinds relevant to the library: every fallible OS call
is modelled as `Except IoError _`. -/
inductive IoError where
  | addrInUse
  | permissionDenied
  | resourceExhaustion
  | invalidInput
  | connectionRefused
  | timedOut
  | other
deriving DecidableEq, Repr

/-- A resolved socket address (Rust `SocketAddr`): family flag, an abstract
numeric key for the IP, and the port, as read back by `SocketAddr::port()`. -/
structure SockAddr where
  v6 : Bool
  ip : Nat
  port : Nat
deriving DecidableEq, Repr

/-- A bound listener (Rust `TcpListener`): all the library ever does with one
is call `local_addr()`, which returns `io::Result<SocketAddr>`. -/
structure TcpListenerHandle where
  local_addr : Except IoError SockAddr
deriving Repr

/-- An abstract key for the `ToSocketAddrs` argument of the reachability
functions (a hostname:port string, a `SocketAddr`, ...). -/
abbrev Address := Nat

/-- The OS socket layer, made explicit.  `bindV4 p` is the outcome of
`TcpListener::bind(SocketAddrV4::new(Ipv4Addr::LOCALHOST, p))` (port 0 being
the ephemeral-port request), `bindV6` likewise for
`SocketAddrV6::new(Ipv6Addr::LOCALHOST, p, 0, 0)`; `resolve` is
`to_socket_addrs()` returning the resolver's candidate list in order;
`connectOne a` is the success of a single-address TCP connect attempt to `a`
under the OS default timeout, and `connect_timeout a t` the success of
`TcpStream::connect_timeout(&a, t)` with timeout `t` (milliseconds). -/
structure NetEnv where
  bindV4 : Nat → Except IoError TcpListenerHandle
  bindV6 : Nat → Except IoError TcpListenerHandle
  resolve : Address → Except IoError (List SockAddr)
  connectOne : SockAddr → Bool
  connect_timeout : SockAddr → Nat → Bool

/-- Rust `enum Port` (src/lib.rs lines 7-12): a 16-bit port tagged with the
IP family it targets. -/
inductive Port where
  | Ipv4 (port : Nat)
  | Ipv6 (port : Nat)
deriving DecidableEq, Repr

/-- `impl From<u16> for Port` (src/lib.rs lines 14-18): a bare integer port
converts to the IPv4 variant. -/
def portFromU16 (port : Nat) : Port :=
  Port.Ipv4 port

/-- `Port::new` (src/lib.rs lines 22-24). -/
def Port.new (port : Nat) : Port :=
  Port.Ipv4 port

/-- `Port::ipv4` (src/lib.rs lines 27-29). -/
def Port.ipv4 (port : Nat) : Port :=
  Port.Ipv4 port

/-- `Port::ipv6` (src/lib.rs lines 32-34). -/
def Port.ipv6 (port : Nat) : Port :=
  Port.Ipv6 port

/-- The two `RangeBounds<u16> + Iterator<Item = u16>` instantiations the
library is used with: Rust `lo..hi` and `lo..=hi`. -/
inductive PortRange where
  | exclusive (lo hi : Nat)
  | inclusive (lo hi : Nat)
deriving DecidableEq, Repr

/-- The ports a Rust range yields, in its iteration order: both `lo..hi` and
`lo..=hi` iterate in ascending order. -/
def PortRange.toList : PortRange → List Nat
  | PortRange.exclusive lo hi => List.range' lo (hi - lo)
  | PortRange.inclusive lo hi => List.range' lo (hi + 1 - lo)

/-- Rust `RangeBounds::contains`: the bounds predicate of a range. -/
def PortRange.contains : PortRange → Nat → Prop
  | PortRange.exclusive lo hi, v => lo ≤ v ∧ v < hi
  | PortRange.inclusive lo hi, v => lo ≤ v ∧ v ≤ hi

instance (r : PortRange) (v : Nat) : Decidable (r.contains v) := by
  cases r <;> exact instDecidableAnd

/-- Rust `enum Ports<R>` (src/lib.rs lines 39-44): a port range tagged with
the IP family it targets. -/
inductive Ports where
  | Ipv4 (r : PortRange)
  | Ipv6 (r : PortRange)
deriving DecidableEq, Repr

/-- `impl From<R> for Ports<R>` (src/lib.rs lines 65-69): a bare range
converts to the IPv4 variant. -/
def portsFromRange (r : PortRange) : Ports :=
  Ports.Ipv4 r

/-- `Ports::new` (src/lib.rs lines 49-51). -/
def Ports.new (r : PortRange) : Ports :=
  Ports.Ipv4 r

/-- `Ports::ipv4` (src/lib.rs lines 54-56). -/
def Ports.ipv4 (r : PortRange) : Ports :=
  Ports.Ipv4 r

/-- `Ports::ipv6` (src/lib.rs lines 59-61). -/
def Ports.ipv6 (r : PortRange) : Ports :=
  Ports.Ipv6 r

/-- The first half of the body of `TcpStream::connect`: per its std
documentation, each resolved address is tried in order until one connection
attempt succeeds; with no addresses left the overall call fails. -/
def connectEach (env : NetEnv) : List SockAddr → Bool
  | [] => false
  | a :: rest => env.connectOne a || connectEach env rest

/-- `is_port_reachable` (src/lib.rs lines 72-74):
`TcpStream::connect(address).is_ok()`.  `TcpStream::connect` resolves the
address and, per its std documentation, attempts a connection to each
resolved address until one succeeds; it fails when resolution fails, yields
no addresses, or every attempt fails. -/
def is_port_reachable (env : NetEnv) (address : Address) : Bool :=
  match env.resolve address with
  | Except.ok addrs => connectEach env addrs
  | Except.error _ => false

/-- The `for` loop of `is_port_reachable_with_timeout`: return `true` at the
first candidate whose bounded connect succeeds, `false` when the iterator is
exhausted. -/
def connectEachTimeout (env : NetEnv) (timeout : Nat) : List SockAddr → Bool
  | [] => false
  | a :: rest => env.connect_timeout a timeout || connectEachTimeout env timeout rest

/-- `is_port_reachable_with_timeout` (src/lib.rs lines 77-89): resolve the
address; on resolver error return `false`; otherwise loop over the candidate
list with `TcpStream::connect_timeout`. -/
def is_port_reachable_with_timeout (env : NetEnv) (address : Address) (timeout : Nat) : Bool :=
  match env.resolve address with
  | Except.ok addrs => connectEachTimeout env timeout addrs
  | Except.error _ => false

/-- `is_local_ipv4_port_free` (src/lib.rs lines 101-104):
`TcpListener::bind(SocketAddrV4::new(Ipv4Addr::LOCALHOST, port)).is_ok()`. -/
def is_local_ipv4_port_free (env : NetEnv) (port : Nat) : Bool :=
  (env.bindV4 port).isOk

/-- `is_local_ipv6_port_free` (src/lib.rs lines 107-110):
`TcpListener::bind(SocketAddrV6::new(Ipv6Addr::LOCALHOST, port, 0, 0)).is_ok()`. -/
def is_local_ipv6_port_free (env : NetEnv) (port : Nat) : Bool :=
  (env.bindV6 port).isOk

/-- `is_local_port_free` (src/lib.rs lines 93-98): dispatch on the (already
converted) `Port` tag. -/
def is_local_port_free (env : NetEnv) (port : Port) : Bool :=
  match port with
  | Port.Ipv4 p => is_local_ipv4_port_free env p
  | Port.Ipv6 p => is_local_ipv6_port_free env p

/-- `free_local_ipv4_port_in_range` (src/lib.rs lines 122-124):
`port_range.into_iter().find(|port| is_local_ipv4_port_free(*port))`. -/
def free_local_ipv4_port_in_range (env : NetEnv) (port_range : PortRange) : Option Nat :=
  port_range.toList.find? (fun port => is_local_ipv4_port_free env port)

/-- `free_local_ipv6_port_in_range` (src/lib.rs lines 127-129). -/
def free_local_ipv6_port_in_range (env : NetEnv) (port_range : PortRange) : Option Nat :=
  port_range.toList.find? (fun port => is_local_ipv6_port_free env port)

/-- `free_local_port_in_range` (src/lib.rs lines 114-119): dispatch on the
(already converted) `Ports` tag. -/
def free_local_port_in_range (env : NetEnv) (port_range : Ports) : Option Nat :=
  match port_range with
  | Ports.Ipv4 r => free_local_ipv4_port_in_range env r
  | Ports.Ipv6 r => free_local_ipv6_port_in_range env r

/-- `free_local_ipv4_port` (src/lib.rs lines 137-143):
`TcpListener::bind(localhost:0).and_then(|l| l.local_addr()).map(|a| a.port()).ok()`. -/
def free_local_ipv4_port (env : NetEnv) : Option Nat :=
  (((env.bindV4 0).bind (fun l => l.local_addr)).map (fun a => a.port)).toOption

/-- `free_local_ipv6_port` (src/lib.rs lines 146-152). -/
def free_local_ipv6_port (env : NetEnv) : Option Nat :=
  (((env.bindV6 0).bind (fun l => l.local_addr)).map (fun a => a.port)).toOption

/-- `free_local_port` (src/lib.rs lines 132-134): defers to the IPv4 variant. -/
def free_local_port (env : NetEnv) : Option Nat :=
  free_local_ipv4_port env

/-- The IP family tag, for stating properties uniformly over both families. -/
inductive IpVersion where
  | v4
  | v6
deriving DecidableEq, Repr

/-- The family-specific free-port check selected by an `IpVersion`. -/
def familyFree (env : NetEnv) : IpVersion → Nat → Bool
  | IpVersion.v4 => is_local_ipv4_port_free env
  | IpVersion.v6 => is_local_ipv6_port_free env

/-- The `Ports` value carrying range `r` for the given family. -/
def Ports.ofVersion : IpVersion → PortRange → Ports
  | IpVersion.v4, r => Ports.Ipv4 r
  | IpVersion.v6, r => Ports.Ipv6 r

/-! ### Helper lemmas -/

/-- If `find?` over an ascending interval returns `some v`, then `v` lies in
the interval, satisfies the predicate, and every smaller element of the
interval fails it. -/
theorem find?_range'_some {p : Nat → Bool} :
    ∀ (n s : Nat) {v : Nat}, (List.range' s n).find? p = some v →
      s ≤ v ∧ v < s + n ∧ p v = true ∧ ∀ u, s ≤ u → u < v → p u = false := by
  intro n
  induction n with
  | zero => intro s v h; simp at h
  | succ m ih =>
    intro s v h
    rw [List.range'_succ] at h
    by_cases hp : p s = true
    · rw [List.find?_cons_of_pos _ hp] at h
      obtain rfl : s = v := by simpa using h
      refine ⟨Nat.le_refl s, by omega, hp, ?_⟩
      intro u hu hlt
      omega
    · rw [List.find?_cons_of_neg _ hp] at h
      obtain ⟨h1, h2, h3, h4⟩ := ih (s + 1) h
      refine ⟨by omega, by omega, h3, ?_⟩
      intro u hu hlt
      rcases Nat.eq_or_lt_of_le hu with rfl | hgt
      · exact Bool.not_eq_true _ ▸ by simpa using hp
      · exact h4 u hgt hlt

/-- If every element of an ascending interval fails the predicate, `find?`
over it returns `none`. -/
theorem find?_range'_none {p : Nat → Bool} :
    ∀ (n s : Nat), (∀ u, s ≤ u → u < s + n → p u = false) →
      (List.range' s n).find? p = none := by
  intro n
  induction n with
  | zero => intro s _; simp
  | succ m ih =>
    intro s h
    rw [List.range'_succ]
    rw [List.find?_cons_of_neg]
    · exact ih (s + 1) (fun u h1 h2 => h u (by omega) (by omega))
    · simp [h s (Nat.le_refl s) (by omega)]

/-- `find?` over the iteration of a `PortRange` characterised through the
range's bounds predicate: the `some` case returns the least in-range value
satisfying `p`, and the `none` case means no in-range value satisfies `p`. -/
theorem find?_toList_spec (p : Nat → Bool) (r : PortRange) :
    (∀ v, r.toList.find? p = some v →
        r.contains v ∧ p v = true ∧ ∀ u, r.contains u → u < v → p u = false) ∧
    ((∀ u, r.contains u → p u = false) → r.toList.find? p = none) := by
  cases r with
  | exclusive lo hi =>
    constructor
    · intro v h
      obtain ⟨h1, h2, h3, h4⟩ := find?_range'_some _ _ h
      exact ⟨⟨h1, by omega⟩, h3, fun u hu hlt => h4 u hu.1 hlt⟩
    · intro hall
      exact find?_range'_none _ _ (fun u h1 h2 => hall u ⟨h1, by omega⟩)
  | inclusive lo hi =>
    constructor
    · intro v h
      obtain ⟨h1, h2, h3, h4⟩ := find?_range'_some _ _ h
      exact ⟨⟨h1, by omega⟩, h3, fun u hu hlt => h4 u hu.1 hlt⟩
    · intro hall
      exact find?_range'_none _ _ (fun u h1 h2 => hall u ⟨h1, by omega⟩)

/-- The connect loop of `is_port_reachable` succeeds exactly when some
candidate's connect attempt succeeds. -/
theorem connectEach_eq_true_iff (env : NetEnv) :
    ∀ l : List SockAddr, (connectEach env l = true ↔ ∃ a, a ∈ l ∧ env.connectOne a = true) := by
  intro l
  induction l with
  | nil => simp [connectEach]
  | cons a rest ih =>
    simp only [connectEach, Bool.or_eq_true, ih, List.mem_cons]
    constructor
    · rintro (h | ⟨b, hb, hc⟩)
      · exact ⟨a, Or.inl rfl, h⟩
      · exact ⟨b, Or.inr hb, hc⟩
    · rintro ⟨b, hb | hb, hc⟩
      · exact Or.inl (hb ▸ hc)
      · exact Or.inr ⟨b, hb, hc⟩

/-- The connect loop of `is_port_reachable_with_timeout` succeeds exactly
when some candidate's bounded connect attempt succeeds. -/
theorem connectEachTimeout_eq_true_iff (env : NetEnv) (t : Nat) :
    ∀ l : List SockAddr,
      (connectEachTimeout env t l = true ↔ ∃ a, a ∈ l ∧ env.connect_timeout a t = true) := by
  intro l
  induction l with
  | nil => simp [connectEachTimeout]
  | cons a rest ih =>
    simp only [connectEachTimeout, Bool.or_eq_true, ih, List.mem_cons]
    constructor
    · rintro (h | ⟨b, hb, hc⟩)
      · exact ⟨a, Or.inl rfl, h⟩
      · exact ⟨b, Or.inr hb, hc⟩
    · rintro ⟨b, hb | hb, hc⟩
      · exact Or.inl (hb ▸ hc)
      · exact Or.inr ⟨b, hb, hc⟩

/-! ### Concrete environments used to instantiate the theorems -/

/-- A listener handle whose `local_addr` query succeeds with port `p`. -/
def okListener (p : Nat) : TcpListenerHandle :=
  { local_addr := Except.ok { v6 := false, ip := 0, port := p } }

/-- A listener handle whose `local_addr` query fails. -/
def badListener : TcpListenerHandle :=
  { local_addr := Except.error IoError.other }

/-- First resolver candidate of `cEnvA` for address 1. -/
def sockA : SockAddr :=
  { v6 := false, ip := 1, port := 80 }

/-- Second resolver candidate of `cEnvA` for address 1. -/
def sockB : SockAddr :=
  { v6 := false, ip := 2, port := 80 }

/-- A concrete socket layer: even IPv4 ports bindable, IPv6 port 3 denied,
address 0 unresolvable, address 1 resolving to two candidates of which only
the second accepts connections. -/
def cEnvA : NetEnv where
  bindV4 := fun p => if p % 2 = 0 then Except.ok (okListener p) else Except.error IoError.addrInUse
  bindV6 := fun p => if p = 3 then Except.error IoError.permissionDenied else Except.ok (okListener p)
  resolve := fun a => if a = 0 then Except.error IoError.other else Except.ok [sockA, sockB]
  connectOne := fun a => a.ip == 2
  connect_timeout := fun a t => a.ip == 2 && Nat.ble 1 t

/-- A concrete socket layer where every bind hands back a listener whose
`local_addr` query fails. -/
def cEnvD : NetEnv where
  bindV4 := fun _ => Except.ok badListener
  bindV6 := fun _ => Except.ok badListener
  resolve := fun _ => Except.error IoError.other
  connectOne := fun _ => false
  connect_timeout := fun _ _ => false

/-- A concrete socket layer where every bind succeeds: the IPv4 ephemeral
bind reports port 55 and the IPv6 one port 66. -/
def cEnvFree : NetEnv where
  bindV4 := fun _ => Except.ok (okListener 55)
  bindV6 := fun _ => Except.ok (okListener 66)
  resolve := fun _ => Except.error IoError.other
  connectOne := fun _ => false
  connect_timeout := fun _ _ => false

/-! ### The claims -/

/-- C1: for every port range and IP version, `free_local_port_in_range`
iterates the range in ascending order and returns `some v` where `v` is the
first in-range port the family's `is_local_port_free` check accepts — so `v`
satisfies the range's bounds and every smaller in-range port is not free —
and it returns `none` when no port of the range is free. -/
theorem free_local_port_in_range_first_free (env : NetEnv) (ver : IpVersion) (r : PortRange) :
    (∀ v, free_local_port_in_range env (Ports.ofVersion ver r) = some v →
        r.contains v ∧ familyFree env ver v = true ∧
        ∀ u, r.contains u → u < v → familyFree env ver u = false) ∧
    ((∀ u, r.contains u → familyFree env ver u = false) →
        free_local_port_in_range env (Ports.ofVersion ver r) = none) := by
  cases ver
  · exact find?_toList_spec (fun port => is_local_ipv4_port_free env port) r
  · exact find?_toList_spec (fun port => is_local_ipv6_port_free env port) r

/-- Witness for C1 at the concrete environment `cEnvA` and the inclusive
range 3..=5: the scan returns port 4, which is in range and free, while the
smaller in-range port 3 is not free. -/
theorem free_local_port_in_range_first_free_witness :
    PortRange.contains (PortRange.inclusive 3 5) 4 ∧
    familyFree cEnvA IpVersion.v4 4 = true ∧
    familyFree cEnvA IpVersion.v4 3 = false :=
  ⟨((free_local_port_in_range_first_free cEnvA IpVersion.v4 (PortRange.inclusive 3 5)).1 4
      (by decide)).1,
   ((free_local_port_in_range_first_free cEnvA IpVersion.v4 (PortRange.inclusive 3 5)).1 4
      (by decide)).2.1,
   ((free_local_port_in_range_first_free cEnvA IpVersion.v4 (PortRange.inclusive 3 5)).1 4
      (by decide)).2.2 3 (by decide) (by decide)⟩

/-- C2: `is_port_reachable_with_timeout` resolves the address and, when
resolution fails, returns `false`; when resolution yields a candidate list it
returns `true` exactly when some candidate's bounded connect with the given
timeout succeeds (the loop stops at the first such candidate), hence `false`
when every candidate's connect fails. -/
theorem is_port_reachable_with_timeout_spec (env : NetEnv) (address : Address) (t : Nat) :
    (∀ e, env.resolve address = Except.error e →
        is_port_reachable_with_timeout env address t = false) ∧
    (∀ addrs, env.resolve address = Except.ok addrs →
        (is_port_reachable_with_timeout env address t = true ↔
          ∃ a, a ∈ addrs ∧ env.connect_timeout a t = true)) := by
  constructor
  · intro e he
    simp [is_port_reachable_with_timeout, he]
  · intro addrs ha
    rw [is_port_reachable_with_timeout, ha]
    exact connectEachTimeout_eq_true_iff env t addrs

/-- Witness for C2 at `cEnvA`: address 0 fails to resolve and the call
returns `false`; address 1 resolves to two candidates of which the second
connects, and the call returns `true`. -/
theorem is_port_reachable_with_timeout_spec_witness :
    is_port_reachable_with_timeout cEnvA 0 5 = false ∧
    is_port_reachable_with_timeout cEnvA 1 5 = true :=
  ⟨(is_port_reachable_with_timeout_spec cEnvA 0 5).1 IoError.other rfl,
   ((is_port_reachable_with_timeout_spec cEnvA 1 5).2 [sockA, sockB] rfl).mpr
     ⟨sockB, by simp, rfl⟩⟩

/-- C3: `is_local_port_free` returns `true` exactly when binding a listening
socket to localhost on that port for the requested family succeeds, and any
bind failure — address in use, permission denied, resource exhaustion, or any
other error — yields `false`; the function is total, so no input raises a
fault. -/
theorem is_local_port_free_iff_bind (env : NetEnv) (p : Nat) :
    (is_local_port_free env (Port.Ipv4 p) = true ↔ ∃ l, env.bindV4 p = Except.ok l) ∧
    (is_local_port_free env (Port.Ipv6 p) = true ↔ ∃ l, env.bindV6 p = Except.ok l) ∧
    (∀ e, env.bindV4 p = Except.error e → is_local_port_free env (Port.Ipv4 p) = false) ∧
    (∀ e, env.bindV6 p = Except.error e → is_local_port_free env (Port.Ipv6 p) = false) := by
  refine ⟨?_, ?_, ?_, ?_⟩
  · rw [is_local_port_free, is_local_ipv4_port_free]
    cases h : env.bindV4 p <;> simp [Except.isOk, Except.toBool]
  · rw [is_local_port_free, is_local_ipv6_port_free]
    cases h : env.bindV6 p <;> simp [Except.isOk, Except.toBool]
  · intro e he
    rw [is_local_port_free, is_local_ipv4_port_free, he]
    rfl
  · intro e he
    rw [is_local_port_free, is_local_ipv6_port_free, he]
    rfl

/-- Witness for C3 at `cEnvA`: IPv4 port 7 fails to bind (address in use) and
is reported not free, IPv6 port 3 fails to bind (permission denied) and is
reported not free, IPv4 port 4 binds and is reported free. -/
theorem is_local_port_free_iff_bind_witness :
    is_local_port_free cEnvA (Port.Ipv4 7) = false ∧
    is_local_port_free cEnvA (Port.Ipv6 3) = false ∧
    is_local_port_free cEnvA (Port.Ipv4 4) = true :=
  ⟨(is_local_port_free_iff_bind cEnvA 7).2.2.1 IoError.addrInUse rfl,
   (is_local_port_free_iff_bind cEnvA 3).2.2.2 IoError.permissionDenied rfl,
   (is_local_port_free_iff_bind cEnvA 4).1.mpr ⟨okListener 4, rfl⟩⟩

/-- A TCP listener occupying port `p` on IPv4 localhost, as in the repo's
test `an_open_port_with_ip_v4_should_not_be_free`: while it is bound, any
further `TcpListener::bind` on the same IPv4 address and port fails with
`AddrInUse`, and no other OS bind outcome changes. -/
def listenOnV4 (env : NetEnv) (p : Nat) : NetEnv :=
  { env with
    bindV4 := fun q => if q = p then Except.error IoError.addrInUse else env.bindV4 q }

/-- A TCP listener occupying port `p` on IPv6 localhost, symmetrically. -/
def listenOnV6 (env : NetEnv) (p : Nat) : NetEnv :=
  { env with
    bindV6 := fun q => if q = p then Except.error IoError.addrInUse else env.bindV6 q }

/-- C4: IPv4 and IPv6 free/used status are independent: with a listening
socket occupying port `p` on one family, `is_local_port_free` is `false` for
`p` on that family, while on the other family every port — `p` included —
reports exactly what it reported without the listener, so `p` stays free
there whenever it was free before. -/
theorem port_family_independence (env : NetEnv) (p q : Nat) :
    is_local_port_free (listenOnV4 env p) (Port.Ipv4 p) = false ∧
    is_local_port_free (listenOnV4 env p) (Port.Ipv6 q) = is_local_port_free env (Port.Ipv6 q) ∧
    is_local_port_free (listenOnV6 env p) (Port.Ipv6 p) = false ∧
    is_local_port_free (listenOnV6 env p) (Port.Ipv4 q) = is_local_port_free env (Port.Ipv4 q) ∧
    (is_local_port_free env (Port.Ipv6 p) = true →
      is_local_port_free (listenOnV4 env p) (Port.Ipv6 p) = true) ∧
    (is_local_port_free env (Port.Ipv4 p) = true →
      is_local_port_free (listenOnV6 env p) (Port.Ipv4 p) = true) := by
  refine ⟨?_, rfl, ?_, rfl, fun h => h, fun h => h⟩
  · simp [is_local_port_free, is_local_ipv4_port_free, listenOnV4, Except.isOk, Except.toBool]
  · simp [is_local_port_free, is_local_ipv6_port_free, listenOnV6, Except.isOk, Except.toBool]

/-- Witness for C4 at `cEnvA` and port 4 (free on both families there): with
an IPv4 listener on port 4, the IPv4 check reports not free while the IPv6
check on port 4 still reports free. -/
theorem port_family_independence_witness :
    is_local_port_free (listenOnV4 cEnvA 4) (Port.Ipv4 4) = false ∧
    is_local_port_free (listenOnV4 cEnvA 4) (Port.Ipv6 4) = true :=
  ⟨(port_family_independence cEnvA 4 4).1,
   (port_family_independence cEnvA 4 4).2.2.2.2.1 rfl⟩

/-- C5 counterexample: the claim says `free_local_port` returns `none` only
if the bind itself fails, but in the environment `cEnvD` the ephemeral bind
succeeds and the function still returns `none`, because the subsequent
`local_addr` query fails. -/
theorem free_local_port_none_despite_bind_ok :
    (cEnvD.bindV4 0).isOk = true ∧ free_local_port cEnvD = none :=
  ⟨rfl, rfl⟩

/-- C5 (amended): `free_local_port` per family binds a listening socket to
localhost:0 and returns the OS-assigned port read back from `local_addr`;
it returns `none` exactly when the bind fails or the bind succeeds and the
`local_addr` query fails. -/
theorem free_local_port_reads_os_port (env : NetEnv) :
    (∀ l a, env.bindV4 0 = Except.ok l → l.local_addr = Except.ok a →
        free_local_ipv4_port env = some a.port) ∧
    (free_local_ipv4_port env = none ↔
        (env.bindV4 0).isOk = false ∨
        ∃ l, env.bindV4 0 = Except.ok l ∧ l.local_addr.isOk = false) ∧
    (∀ l a, env.bindV6 0 = Except.ok l → l.local_addr = Except.ok a →
        free_local_ipv6_port env = some a.port) ∧
    (free_local_ipv6_port env = none ↔
        (env.bindV6 0).isOk = false ∨
        ∃ l, env.bindV6 0 = Except.ok l ∧ l.local_addr.isOk = false) := by
  refine ⟨?_, ?_, ?_, ?_⟩
  · intro l a hb ha
    rw [free_local_ipv4_port, hb, Except.bind, ha]
    rfl
  · rw [free_local_ipv4_port]
    cases hb : env.bindV4 0 with
    | error e =>
      simp [Except.bind, Except.isOk, Except.toBool, Except.map, Except.toOption]
    | ok l =>
      cases ha : l.local_addr with
      | error e =>
        simp [Except.bind, ha, Except.isOk, Except.toBool, Except.map, Except.toOption]
      | ok a =>
        simp [Except.bind, ha, Except.isOk, Except.toBool, Except.map, Except.toOption]
  · intro l a hb ha
    rw [free_local_ipv6_port, hb, Except.bind, ha]
    rfl
  · rw [free_local_ipv6_port]
    cases hb : env.bindV6 0 with
    | error e =>
      simp [Except.bind, Except.isOk, Except.toBool, Except.map, Except.toOption]
    | ok l =>
      cases ha : l.local_addr with
      | error e =>
        simp [Except.bind, ha, Except.isOk, Except.toBool, Except.map, Except.toOption]
      | ok a =>
        simp [Except.bind, ha, Except.isOk, Except.toBool, Except.map, Except.toOption]

/-- Witness for C5 (amended): in `cEnvA` the IPv4 ephemeral bind succeeds and
`local_addr` reports port 0, so `free_local_ipv4_port` returns `some 0`; in
`cEnvD` the bind succeeds but `local_addr` fails, so the result is `none`. -/
theorem free_local_port_reads_os_port_witness :
    free_local_ipv4_port cEnvA = some 0 ∧ free_local_ipv4_port cEnvD = none :=
  ⟨(free_local_port_reads_os_port cEnvA).1 (okListener 0)
      { v6 := false, ip := 0, port := 0 } rfl rfl,
   (free_local_port_reads_os_port cEnvD).2.1.mpr (Or.inr ⟨badListener, rfl, rfl⟩)⟩

/-- Absence of interference on the IPv4 ephemeral port: whatever port the OS
hands out for the bind to localhost:0 is still bindable afterwards (no other
process grabbed it between the release and the re-check).  This is the
environment assumption under which C7 is stated. -/
def NoInterferenceV4 (env : NetEnv) : Prop :=
  ∀ l a, env.bindV4 0 = Except.ok l → l.local_addr = Except.ok a →
    (env.bindV4 a.port).isOk = true

/-- Absence of interference on the IPv6 ephemeral port, symmetrically. -/
def NoInterferenceV6 (env : NetEnv) : Prop :=
  ∀ l a, env.bindV6 0 = Except.ok l → l.local_addr = Except.ok a →
    (env.bindV6 a.port).isOk = true

/-- C7: absent interference from another process, whenever `free_local_port`
for a family returns `some p`, the family's `is_local_port_free` check on `p`
evaluated immediately afterwards returns `true`. -/
theorem free_local_port_yields_free_port (env : NetEnv) (p : Nat)
    (h4 : NoInterferenceV4 env) (h6 : NoInterferenceV6 env) :
    (free_local_port env = some p → is_local_port_free env (Port.Ipv4 p) = true) ∧
    (free_local_ipv4_port env = some p → is_local_ipv4_port_free env p = true) ∧
    (free_local_ipv6_port env = some p → is_local_ipv6_port_free env p = true) := by
  have hv4 : free_local_ipv4_port env = some p → is_local_ipv4_port_free env p = true := by
    intro h
    rw [free_local_ipv4_port] at h
    rcases hb : env.bindV4 0 with e | l
    · rw [hb] at h
      simp [Except.bind, Except.map, Except.toOption] at h
    · rw [hb] at h
      rcases ha : l.local_addr with e | a
      · rw [Except.bind, ha] at h
        simp [Except.map, Except.toOption] at h
      · rw [Except.bind, ha] at h
        simp only [Except.map, Except.toOption, Option.some.injEq] at h
        rw [is_local_ipv4_port_free, ← h]
        exact h4 l a hb ha
  refine ⟨hv4, hv4, ?_⟩
  · intro h
    rw [free_local_ipv6_port] at h
    rcases hb : env.bindV6 0 with e | l
    · rw [hb] at h
      simp [Except.bind, Except.map, Except.toOption] at h
    · rw [hb] at h
      rcases ha : l.local_addr with e | a
      · rw [Except.bind, ha] at h
        simp [Except.map, Except.toOption] at h
      · rw [Except.bind, ha] at h
        simp only [Except.map, Except.toOption, Option.some.injEq] at h
        rw [is_local_ipv6_port_free, ← h]
        exact h6 l a hb ha

/-- Witness for C7 at `cEnvFree`, where every bind succeeds: the IPv4
ephemeral bind reports port 55, and port 55 is indeed free; the IPv6 one
reports port 66, also free. -/
theorem free_local_port_yields_free_port_witness :
    is_local_port_free cEnvFree (Port.Ipv4 55) = true ∧
    is_local_ipv6_port_free cEnvFree 66 = true :=
  ⟨(free_local_port_yields_free_port cEnvFree 55
      (fun _ _ _ _ => rfl) (fun _ _ _ _ => rfl)).1 rfl,
   (free_local_port_yields_free_port cEnvFree 66
      (fun _ _ _ _ => rfl) (fun _ _ _ _ => rfl)).2.2 rfl⟩

/-- C6 counterexample: the claim says `is_port_reachable` attempts a connect
only to the first resolvable candidate and returns `true` iff that connection
succeeds, but in `cEnvA` address 1 resolves to two candidates, the first
candidate's connect fails, and `is_port_reachable` still returns `true`
(the second candidate connects), because `TcpStream::connect` tries each
resolved address until one succeeds. -/
theorem is_port_reachable_second_candidate :
    cEnvA.resolve 1 = Except.ok [sockA, sockB] ∧
    cEnvA.connectOne sockA = false ∧
    is_port_reachable cEnvA 1 = true :=
  ⟨rfl, rfl, rfl⟩

/-- C6 (amended): `is_port_reachable` resolves the address and attempts a TCP
connect to the resolved candidates in order; it returns `true` exactly when
some candidate's connection succeeds, and `false` on resolution failure or
when every candidate's connection fails. -/
theorem is_port_reachable_any_candidate (env : NetEnv) (address : Address) :
    (∀ e, env.resolve address = Except.error e → is_port_reachable env address = false) ∧
    (∀ addrs, env.resolve address = Except.ok addrs →
        (is_port_reachable env address = true ↔
          ∃ a, a ∈ addrs ∧ env.connectOne a = true)) := by
  constructor
  · intro e he
    simp [is_port_reachable, he]
  · intro addrs ha
    rw [is_port_reachable, ha]
    exact connectEach_eq_true_iff env addrs

/-- Witness for C6 (amended) at `cEnvA`: address 0 fails to resolve and the
call returns `false`; address 1 resolves to two candidates of which the
second connects, and the call returns `true`. -/
theorem is_port_reachable_any_candidate_witness :
    is_port_reachable cEnvA 0 = false ∧ is_port_reachable cEnvA 1 = true :=
  ⟨(is_port_reachable_any_candidate cEnvA 0).1 IoError.other rfl,
   ((is_port_reachable_any_candidate cEnvA 1).2 [sockA, sockB] rfl).mpr
     ⟨sockB, by simp, rfl⟩⟩

/-- C8: a bare integer port or bare range defaults to IPv4 — converting a
`u16` gives the `Port::Ipv4` variant and converting a range gives the
`Ports::Ipv4` variant, so the generic functions agree with their IPv4
variants on bare inputs, `free_local_port` defers to `free_local_ipv4_port`,
and an explicit IPv6 tag dispatches to the IPv6 variant instead. -/
theorem bare_values_default_to_ipv4 (env : NetEnv) (p : Nat) (r : PortRange) :
    is_local_port_free env (portFromU16 p) = is_local_ipv4_port_free env p ∧
    free_local_port_in_range env (portsFromRange r) = free_local_ipv4_port_in_range env r ∧
    free_local_port env = free_local_ipv4_port env ∧
    is_local_port_free env (Port.Ipv6 p) = is_local_ipv6_port_free env p ∧
    free_local_port_in_range env (Ports.Ipv6 r) = free_local_ipv6_port_in_range env r :=
  ⟨rfl, rfl, rfl, rfl, rfl⟩

/-- Witness for C8 at `cEnvA`, port 4 and the range 3..=5. -/
theorem bare_values_default_to_ipv4_witness :
    is_local_port_free cEnvA (portFromU16 4) = is_local_ipv4_port_free cEnvA 4 ∧
    free_local_port_in_range cEnvA (portsFromRange (PortRange.inclusive 3 5)) =
      free_local_ipv4_port_in_range cEnvA (PortRange.inclusive 3 5) ∧
    free_local_port cEnvA = free_local_ipv4_port cEnvA :=
  ⟨(bare_values_default_to_ipv4 cEnvA 4 (PortRange.inclusive 3 5)).1,
   (bare_values_default_to_ipv4 cEnvA 4 (PortRange.inclusive 3 5)).2.1,
   (bare_values_default_to_ipv4 cEnvA 4 (PortRange.inclusive 3 5)).2.2.1⟩

/-- C10: for every port range whose iterator yields no ports, the range-scan
functions return `none` in every environment — whatever ports are free or
occupied — because the scan never probes any port. -/
theorem empty_range_returns_none (env : NetEnv) (r : PortRange) (h : r.toList = []) :
    free_local_ipv4_port_in_range env r = none ∧
    free_local_ipv6_port_in_range env r = none ∧
    free_local_port_in_range env (portsFromRange r) = none ∧
    free_local_port_in_range env (Ports.Ipv6 r) = none := by
  refine ⟨?_, ?_, ?_, ?_⟩ <;>
    simp [free_local_port_in_range, portsFromRange,
      free_local_ipv4_port_in_range, free_local_ipv6_port_in_range, h]

/-- Witness for C10 at `cEnvA` and the empty range 9..9. -/
theorem empty_range_returns_none_witness :
    free_local_ipv4_port_in_range cEnvA (PortRange.exclusive 9 9) = none ∧
    free_local_port_in_range cEnvA (Ports.Ipv6 (PortRange.exclusive 9 9)) = none :=
  ⟨(empty_range_returns_none cEnvA (PortRange.exclusive 9 9) rfl).1,
   (empty_range_returns_none cEnvA (PortRange.exclusive 9 9) rfl).2.2.2⟩

end PortCheck
